import Mathlib

/-!
Shallow embedding of two modules of the pydm repository:

* `pydm/data_plugins/epics_plugin.py` — the import-time dispatch that
  binds the `EPICSPlugin` alias to one of two backend classes based on
  the `PYDM_EPICS_LIB` environment variable and library availability.

* `pydm/widgets/multi_axis_viewbox.py` — the `MultiAxisViewBox` class:
  geometry propagation to stacked views, wheel/drag signal re-broadcast,
  key handling and zoom-history navigation (`scaleHistory`).

Stateful Python code is modelled as pure functions that return the new
state together with the ordered list of externally visible effects
(signal emissions, superclass calls, view-range changes).
-/

namespace Pydm

namespace EpicsPlugin

/-- The two EPICS client backend classes that `epics_plugin.py` can
import: `psp_plugin.PSPPlugin` and `pyepics_plugin.PyEPICSPlugin`. -/
inductive Backend where
  | PSPPlugin
  | PyEPICSPlugin
  deriving DecidableEq, Repr

/-- Which backend libraries are installed in the running Python
environment: an import of a backend succeeds exactly when its library is
installed. -/
structure PyEnv where
  pspInstalled : Bool
  pyepicsInstalled : Bool
  deriving DecidableEq, Repr

/-- A Python `import` of a backend module: yields the backend class on
success and an `ImportError` (modelled as `Except.error ()`) when the
library is not installed. -/
def importBackend (env : PyEnv) : Backend → Except Unit Backend
  | Backend.PSPPlugin =>
      if env.pspInstalled then Except.ok Backend.PSPPlugin else Except.error ()
  | Backend.PyEPICSPlugin =>
      if env.pyepicsInstalled then Except.ok Backend.PyEPICSPlugin else Except.error ()

/-- The import-time dispatch of `epics_plugin.py` (lines 6-19): read
`PYDM_EPICS_LIB`; on "pyepics" import PyEPICSPlugin, on "pyca" import
PSPPlugin, otherwise try PSPPlugin and fall back to PyEPICSPlugin when
that import raises `ImportError`. -/
def selectBackend (EPICS_LIB : Option String) (env : PyEnv) : Except Unit Backend :=
  if EPICS_LIB = some "pyepics" then importBackend env Backend.PyEPICSPlugin
  else if EPICS_LIB = some "pyca" then importBackend env Backend.PSPPlugin
  else
    match importBackend env Backend.PSPPlugin with
    | Except.ok b => Except.ok b
    | Except.error _ => importBackend env Backend.PyEPICSPlugin

/-- The ordered sequence of backend imports the module attempts during
the dispatch. -/
def importAttempts (EPICS_LIB : Option String) (env : PyEnv) : List Backend :=
  if EPICS_LIB = some "pyepics" then [Backend.PyEPICSPlugin]
  else if EPICS_LIB = some "pyca" then [Backend.PSPPlugin]
  else if env.pspInstalled then [Backend.PSPPlugin]
  else [Backend.PSPPlugin, Backend.PyEPICSPlugin]

/-- The state of the module after a successful load: the chosen
`EPICSPlugin` alias and its `protocol` class attribute (set to "ca" on
line 20). -/
structure EpicsModule where
  EPICSPlugin : Backend
  protocol : String
  deriving DecidableEq, Repr

/-- Loading `epics_plugin.py`: the backend dispatch, followed by the
assignment `EPICSPlugin.protocol = "ca"` when the dispatch succeeded. -/
def loadModule (EPICS_LIB : Option String) (env : PyEnv) : Except Unit EpicsModule :=
  match selectBackend EPICS_LIB env with
  | Except.ok b => Except.ok { EPICSPlugin := b, protocol := "ca" }
  | Except.error e => Except.error e

/-- Whether an unhandled `ImportError` escapes the module load. -/
def importErrorRaised (EPICS_LIB : Option String) (env : PyEnv) : Bool :=
  match loadModule EPICS_LIB env with
  | Except.error _ => true
  | Except.ok _ => false

end EpicsPlugin

namespace MultiAxisViewBox

/-- Python list indexing `xs[i]`: non-negative indices count from the
front, negative indices from the back, and an out-of-range index raises
`IndexError` (modelled as `none`). -/
def pythonGet {α : Type} (xs : List α) (i : Int) : Option α :=
  if 0 ≤ i then xs.get? i.toNat
  else if 0 ≤ (xs.length : Int) + i then xs.get? ((xs.length : Int) + i).toNat
  else none

/-- The zoom-history state of a view box (attributes inherited from the
pyqtgraph `ViewBox` base class): the list of recorded view rectangles
`axHistory` and the pointer `axHistoryPointer` into it. Rectangles are
abstract (`α`). -/
structure ViewBoxState (α : Type) where
  axHistory : List α
  axHistoryPointer : Int
  deriving DecidableEq, Repr

/-- The externally visible effects of `scaleHistory`, in order of
occurrence: the `sigHistoryChanged` emission, a call to
`enableAutoRange`, or a call to `showAxRect` with the rectangle obtained
by indexing `axHistory` (`none` for an `IndexError`). -/
inductive ViewEffect (α : Type) where
  | sigHistoryChanged (d : Int)
  | enableAutoRange
  | showAxRect (r : Option α)
  deriving DecidableEq, Repr

/-- `MultiAxisViewBox.scaleHistory` (lines 101-126): emit
`sigHistoryChanged(d)` first; then, when `axHistory` is non-empty, move
the pointer (backward unless at -1, forward unless at the last index,
or reset to -1 on `d = 0`) and either enable auto-range (pointer -1) or
show the stored rectangle at the pointer. -/
def scaleHistory {α : Type} (s : ViewBoxState α) (d : Int) :
    ViewBoxState α × List (ViewEffect α) :=
  let emitted : List (ViewEffect α) := [ViewEffect.sigHistoryChanged d]
  if s.axHistory.length ≠ 0 then
    let p :=
      if d = -1 ∧ s.axHistoryPointer ≠ -1 then s.axHistoryPointer - 1
      else if d = 1 ∧ s.axHistoryPointer ≠ (s.axHistory.length : Int) - 1 then
        s.axHistoryPointer + 1
      else if d = 0 then -1
      else s.axHistoryPointer
    if p = -1 then
      ({ s with axHistoryPointer := p }, emitted ++ [ViewEffect.enableAutoRange])
    else
      ({ s with axHistoryPointer := p },
        emitted ++ [ViewEffect.showAxRect (pythonGet s.axHistory p)])
  else (s, emitted)

/-- The Qt key codes `keyPressEvent` distinguishes: `Qt.Key.Key_Backspace`
and everything else. -/
inductive QtKey where
  | KeyBackspace
  | otherKey
  deriving DecidableEq, Repr

/-- A key-press event: its `text()` and its `key()`. -/
structure KeyEv where
  text : String
  key : QtKey
  deriving DecidableEq, Repr

/-- The outcome of `keyPressEvent`: the argument passed to
`scaleHistory` (when it was called), and the event's final accepted
flag (`ev.accept()` is called first; the last branch calls
`ev.ignore()`, leaving the event for ancestor handling). -/
structure KeyResult where
  scaleHistoryArg : Option Int
  accepted : Bool
  deriving DecidableEq, Repr

/-- `MultiAxisViewBox.keyPressEvent` (lines 75-99): accept the event,
then dispatch on the text '-' / '+' / '=' and the Backspace key, and
ignore any other key. -/
def keyPressEvent (ev : KeyEv) : KeyResult :=
  if ev.text = "-" then { scaleHistoryArg := some (-1), accepted := true }
  else if ev.text ∈ ["+", "="] then { scaleHistoryArg := some 1, accepted := true }
  else if ev.key = QtKey.KeyBackspace then { scaleHistoryArg := some 0, accepted := true }
  else { scaleHistoryArg := none, accepted := false }

/-- The ordered steps taken by the wheel and mouse-drag handlers: signal
emissions and superclass calls, each carrying the event (`ε`) and the
axis argument. -/
inductive MouseStep (ε : Type) where
  | sigMouseWheelZoomed (ev : ε) (axis : Option Int)
  | superWheelEvent (ev : ε) (axis : Option Int)
  | sigMouseDragged (ev : ε) (axis : Option Int)
  | superMouseDragEvent (ev : ε) (axis : Option Int)
  deriving DecidableEq, Repr

/-- `MultiAxisViewBox.wheelEvent` (lines 43-57): when `axis is None`,
emit `sigMouseWheelZoomed(ev, axis)`, then always call the superclass
handler. -/
def wheelEvent {ε : Type} (ev : ε) (axis : Option Int) : List (MouseStep ε) :=
  (if axis = none then [MouseStep.sigMouseWheelZoomed ev axis] else [])
    ++ [MouseStep.superWheelEvent ev axis]

/-- `MultiAxisViewBox.mouseDragEvent` (lines 60-73): when `axis is
None`, emit `sigMouseDragged(ev, axis)`, then always call the superclass
handler. -/
def mouseDragEvent {ε : Type} (ev : ε) (axis : Option Int) : List (MouseStep ε) :=
  (if axis = none then [MouseStep.sigMouseDragged ev axis] else [])
    ++ [MouseStep.superMouseDragEvent ev axis]

/-- The per-view actions of `updateStackedViews`: setting a view's
geometry to a rectangle, and updating its linked x-axis view. -/
inductive StackedUpdate (V R : Type) where
  | setGeometry (view : V) (rect : R)
  | linkedViewChanged (view : V)
  deriving DecidableEq, Repr

/-- `MultiAxisViewBox.updateStackedViews` (lines 35-41): for every view
in `stackedViews` (modelled as the list of currently live members of the
weak set, in iteration order), set its geometry to the top-level view's
scene bounding rectangle and update its linked x-axis view. -/
def updateStackedViews {V R : Type} (stackedViews : List V) (sceneBoundingRect : R) :
    List (StackedUpdate V R) :=
  stackedViews.flatMap fun view =>
    [StackedUpdate.setGeometry view sceneBoundingRect, StackedUpdate.linkedViewChanged view]

end MultiAxisViewBox

namespace MultiAxisViewBox

/-- `pythonGet` on an in-range non-negative index returns an element. -/
theorem pythonGet_total {α : Type} (xs : List α) (i : Int) (h0 : 0 ≤ i)
    (h1 : i < (xs.length : Int)) : ∃ r, pythonGet xs i = some r := by
  unfold pythonGet
  rw [if_pos h0]
  have hlt : i.toNat < xs.length := by omega
  exact ⟨xs.get ⟨i.toNat, hlt⟩, List.get?_eq_get hlt⟩

/-- `scaleHistory` never modifies the history list itself. -/
theorem scaleHistory_axHistory {α : Type} (s : ViewBoxState α) (d : Int) :
    (scaleHistory s d).1.axHistory = s.axHistory := by
  simp only [scaleHistory]
  split_ifs <;> rfl

/-- Closed form of the pointer after `scaleHistory`. -/
theorem scaleHistory_pointer_formula {α : Type} (s : ViewBoxState α) (d : Int) :
    (scaleHistory s d).1.axHistoryPointer =
      if s.axHistory.length = 0 then s.axHistoryPointer
      else if d = -1 ∧ s.axHistoryPointer ≠ -1 then s.axHistoryPointer - 1
      else if d = 1 ∧ s.axHistoryPointer ≠ (s.axHistory.length : Int) - 1 then
        s.axHistoryPointer + 1
      else if d = 0 then -1
      else s.axHistoryPointer := by
  simp only [scaleHistory]
  split_ifs <;> simp_all

/-- The first effect of every `scaleHistory` call is the
`sigHistoryChanged` emission with the same argument. -/
theorem scaleHistory_head_emit {α : Type} (s : ViewBoxState α) (d : Int) :
    (scaleHistory s d).2.head? = some (ViewEffect.sigHistoryChanged d) := by
  simp only [scaleHistory]
  split_ifs <;> rfl

/-- Closed form of the effect list of `scaleHistory` on a non-empty
history. -/
theorem scaleHistory_effects_formula {α : Type} (s : ViewBoxState α) (d : Int)
    (hne : s.axHistory.length ≠ 0) :
    (scaleHistory s d).2 =
      if (scaleHistory s d).1.axHistoryPointer = -1 then
        [ViewEffect.sigHistoryChanged d, ViewEffect.enableAutoRange]
      else
        [ViewEffect.sigHistoryChanged d,
          ViewEffect.showAxRect (pythonGet s.axHistory (scaleHistory s d).1.axHistoryPointer)] := by
  simp only [scaleHistory]
  split_ifs <;> simp_all

/-- C1: for every `scaleHistory(d)` call with `d` in {-1, 0, 1} from a
state whose pointer lies in [-1, len(axHistory) - 1], the pointer stays
in that range; a backward step taken at -1 and a forward step taken at
len(axHistory) - 1 leave the pointer unchanged; and `sigHistoryChanged`
is emitted with argument `d` as the first effect of every call,
including calls where the pointer does not move and calls on an empty
history. -/
theorem scaleHistory_clamps_and_always_emits {α : Type} (s : ViewBoxState α) (d : Int)
    (hd : d = -1 ∨ d = 0 ∨ d = 1)
    (hlo : -1 ≤ s.axHistoryPointer)
    (hhi : s.axHistoryPointer ≤ (s.axHistory.length : Int) - 1) :
    (-1 ≤ (scaleHistory s d).1.axHistoryPointer
      ∧ (scaleHistory s d).1.axHistoryPointer ≤
          ((scaleHistory s d).1.axHistory.length : Int) - 1)
    ∧ (d = -1 → s.axHistoryPointer = -1 →
        (scaleHistory s d).1.axHistoryPointer = s.axHistoryPointer)
    ∧ (d = 1 → s.axHistoryPointer = (s.axHistory.length : Int) - 1 →
        (scaleHistory s d).1.axHistoryPointer = s.axHistoryPointer)
    ∧ (scaleHistory s d).2.head? = some (ViewEffect.sigHistoryChanged d) := by
  have hx := scaleHistory_axHistory s d
  have hp := scaleHistory_pointer_formula s d
  refine ⟨?_, ?_, ?_, scaleHistory_head_emit s d⟩
  · rw [hx, hp]; constructor <;> (split_ifs <;> omega)
  · intro h1 h2; rw [hp]; split_ifs <;> omega
  · intro h1 h2; rw [hp]; split_ifs <;> omega

/-- Witness for C1: a forward step from the last history index (pointer
1 in a two-entry history) satisfies the clamp and emission properties. -/
theorem scaleHistory_clamps_and_always_emits_witness :
    ((-1 : Int) ≤ (scaleHistory (⟨[10, 20], 1⟩ : ViewBoxState Nat) 1).1.axHistoryPointer
      ∧ (scaleHistory (⟨[10, 20], 1⟩ : ViewBoxState Nat) 1).1.axHistoryPointer ≤
          (((scaleHistory (⟨[10, 20], 1⟩ : ViewBoxState Nat) 1).1.axHistory.length : Int)) - 1)
    ∧ ((1 : Int) = -1 → (1 : Int) = -1 →
        (scaleHistory (⟨[10, 20], 1⟩ : ViewBoxState Nat) 1).1.axHistoryPointer = 1)
    ∧ ((1 : Int) = 1 → (1 : Int) = (([10, 20].length : Int)) - 1 →
        (scaleHistory (⟨[10, 20], 1⟩ : ViewBoxState Nat) 1).1.axHistoryPointer = 1)
    ∧ (scaleHistory (⟨[10, 20], 1⟩ : ViewBoxState Nat) 1).2.head? =
        some (ViewEffect.sigHistoryChanged 1) :=
  scaleHistory_clamps_and_always_emits (⟨[10, 20], 1⟩ : ViewBoxState Nat) 1
    (by decide) (by decide) (by decide)

/-- C3: for every `scaleHistory(d)` call with `d` in {-1, 0, 1} on a
non-empty history from a state with the pointer in range: when the
updated pointer is -1 the view enables auto-range, otherwise it shows
the stored rectangle at the pointer; reset (`d = 0`) always yields
pointer -1, and a backward step from position 0 also yields -1. -/
theorem scaleHistory_autorange_or_shows_rect {α : Type} (s : ViewBoxState α) (d : Int)
    (hne : s.axHistory.length ≠ 0)
    (hd : d = -1 ∨ d = 0 ∨ d = 1)
    (hlo : -1 ≤ s.axHistoryPointer)
    (hhi : s.axHistoryPointer ≤ (s.axHistory.length : Int) - 1) :
    ((scaleHistory s d).1.axHistoryPointer = -1 →
        (scaleHistory s d).2 = [ViewEffect.sigHistoryChanged d, ViewEffect.enableAutoRange])
    ∧ ((scaleHistory s d).1.axHistoryPointer ≠ -1 →
        ∃ r, pythonGet s.axHistory (scaleHistory s d).1.axHistoryPointer = some r
          ∧ (scaleHistory s d).2 =
              [ViewEffect.sigHistoryChanged d, ViewEffect.showAxRect (some r)])
    ∧ (d = 0 → (scaleHistory s d).1.axHistoryPointer = -1)
    ∧ (d = -1 → s.axHistoryPointer = 0 → (scaleHistory s d).1.axHistoryPointer = -1) := by
  have hp := scaleHistory_pointer_formula s d
  have heff := scaleHistory_effects_formula s d hne
  refine ⟨?_, ?_, ?_, ?_⟩
  · intro h; rw [heff, if_pos h]
  · intro h
    have hb : 0 ≤ (scaleHistory s d).1.axHistoryPointer ∧
        (scaleHistory s d).1.axHistoryPointer < (s.axHistory.length : Int) := by
      rw [hp] at h ⊢
      constructor <;> (split_ifs at h ⊢ <;> omega)
    obtain ⟨r, hr⟩ := pythonGet_total s.axHistory _ hb.1 hb.2
    exact ⟨r, hr, by rw [heff, if_neg h, hr]⟩
  · intro h0; rw [hp]; split_ifs <;> omega
  · intro h1 h2; rw [hp]; split_ifs <;> omega

/-- Witness for C3: a forward step from pointer 0 in a two-entry history
shows the stored rectangle at index 1. -/
theorem scaleHistory_autorange_or_shows_rect_witness :
    ((scaleHistory (⟨[10, 20], 0⟩ : ViewBoxState Nat) 1).1.axHistoryPointer = -1 →
        (scaleHistory (⟨[10, 20], 0⟩ : ViewBoxState Nat) 1).2 =
          [ViewEffect.sigHistoryChanged 1, ViewEffect.enableAutoRange])
    ∧ ((scaleHistory (⟨[10, 20], 0⟩ : ViewBoxState Nat) 1).1.axHistoryPointer ≠ -1 →
        ∃ r, pythonGet [10, 20] (scaleHistory (⟨[10, 20], 0⟩ : ViewBoxState Nat) 1).1.axHistoryPointer = some r
          ∧ (scaleHistory (⟨[10, 20], 0⟩ : ViewBoxState Nat) 1).2 =
              [ViewEffect.sigHistoryChanged 1, ViewEffect.showAxRect (some r)])
    ∧ ((1 : Int) = 0 → (scaleHistory (⟨[10, 20], 0⟩ : ViewBoxState Nat) 1).1.axHistoryPointer = -1)
    ∧ ((1 : Int) = -1 → (0 : Int) = 0 →
        (scaleHistory (⟨[10, 20], 0⟩ : ViewBoxState Nat) 1).1.axHistoryPointer = -1) :=
  scaleHistory_autorange_or_shows_rect (⟨[10, 20], 0⟩ : ViewBoxState Nat) 1
    (by decide) (by decide) (by decide) (by decide)

/-- C4: `keyPressEvent` maps text '-' to a backward step, text '+' or
'=' to a forward step, and the Backspace key (when the text is none of
the former) to a reset, accepting the event in each case; any other key
leaves `scaleHistory` uncalled and the event ignored for ancestor
handling. -/
theorem keyPressEvent_dispatch (ev : KeyEv) :
    (ev.text = "-" →
        keyPressEvent ev = { scaleHistoryArg := some (-1), accepted := true })
    ∧ (ev.text = "+" ∨ ev.text = "=" →
        keyPressEvent ev = { scaleHistoryArg := some 1, accepted := true })
    ∧ (ev.key = QtKey.KeyBackspace → ev.text ≠ "-" → ev.text ≠ "+" → ev.text ≠ "=" →
        keyPressEvent ev = { scaleHistoryArg := some 0, accepted := true })
    ∧ (ev.text ≠ "-" → ev.text ≠ "+" → ev.text ≠ "=" → ev.key ≠ QtKey.KeyBackspace →
        keyPressEvent ev = { scaleHistoryArg := none, accepted := false }) := by
  refine ⟨?_, ?_, ?_, ?_⟩
  · intro h; simp [keyPressEvent, h]
  · rintro (h | h) <;> simp [keyPressEvent, h]
  · intro hk h1 h2 h3; simp [keyPressEvent, h1, h2, h3, hk]
  · intro h1 h2 h3 hk; simp [keyPressEvent, h1, h2, h3, hk]

/-- Witness for C4: the '-' key steps backward, and an unrecognized key
('x' with a non-Backspace code) is ignored with no history call. -/
theorem keyPressEvent_dispatch_witness :
    keyPressEvent ⟨"-", QtKey.otherKey⟩ = { scaleHistoryArg := some (-1), accepted := true }
    ∧ keyPressEvent ⟨"x", QtKey.otherKey⟩ = { scaleHistoryArg := none, accepted := false } :=
  ⟨(keyPressEvent_dispatch ⟨"-", QtKey.otherKey⟩).1 rfl,
    (keyPressEvent_dispatch ⟨"x", QtKey.otherKey⟩).2.2.2
      (by decide) (by decide) (by decide) (by decide)⟩

/-- C7: the wheel and drag handlers emit their signal exactly when the
event's axis argument is `None`, the emission precedes the superclass
call, and with a specific axis only the superclass call runs. -/
theorem mouse_events_emit_iff_outside_axis {ε : Type} (ev : ε) (axis : Option Int) :
    ((MouseStep.sigMouseWheelZoomed ev axis ∈ wheelEvent ev axis) ↔ axis = none)
    ∧ ((MouseStep.sigMouseDragged ev axis ∈ mouseDragEvent ev axis) ↔ axis = none)
    ∧ (axis = none →
        wheelEvent ev axis =
            [MouseStep.sigMouseWheelZoomed ev axis, MouseStep.superWheelEvent ev axis]
        ∧ mouseDragEvent ev axis =
            [MouseStep.sigMouseDragged ev axis, MouseStep.superMouseDragEvent ev axis])
    ∧ (axis ≠ none →
        wheelEvent ev axis = [MouseStep.superWheelEvent ev axis]
        ∧ mouseDragEvent ev axis = [MouseStep.superMouseDragEvent ev axis]) := by
  rcases axis with _ | a <;> simp [wheelEvent, mouseDragEvent]

/-- Witness for C7: an event with no axis yields the signal emission
followed by the superclass call, for both handlers. -/
theorem mouse_events_emit_iff_outside_axis_witness :
    wheelEvent (0 : Nat) (none : Option Int) =
        [MouseStep.sigMouseWheelZoomed 0 none, MouseStep.superWheelEvent 0 none]
    ∧ mouseDragEvent (0 : Nat) (none : Option Int) =
        [MouseStep.sigMouseDragged 0 none, MouseStep.superMouseDragEvent 0 none] :=
  (mouse_events_emit_iff_outside_axis (0 : Nat) (none : Option Int)).2.2.1 rfl

/-- C8: `updateStackedViews` sets the geometry of every stacked view to
the top-level view's scene bounding rectangle and updates every stacked
view's linked x-axis view; no member of the stacked-view set is
skipped. -/
theorem updateStackedViews_updates_every_view {V R : Type} (stackedViews : List V)
    (sceneBoundingRect : R) (v : V) (hv : v ∈ stackedViews) :
    StackedUpdate.setGeometry v sceneBoundingRect ∈
        updateStackedViews stackedViews sceneBoundingRect
    ∧ StackedUpdate.linkedViewChanged v ∈
        updateStackedViews stackedViews sceneBoundingRect := by
  unfold updateStackedViews
  constructor <;> exact List.mem_flatMap.mpr ⟨v, hv, by simp⟩

/-- Witness for C8: in a two-view stack, the first view receives both
its geometry update and its axis-link update. -/
theorem updateStackedViews_updates_every_view_witness :
    StackedUpdate.setGeometry 0 5 ∈ updateStackedViews [0, 1] (5 : Nat)
    ∧ StackedUpdate.linkedViewChanged (0 : Nat) ∈ updateStackedViews [0, 1] (5 : Nat) :=
  updateStackedViews_updates_every_view [0, 1] 5 0 (by decide)

end MultiAxisViewBox

namespace EpicsPlugin

/-- C2: the backend selection raises an unhandled import error, under an
explicit unsupported override (a `PYDM_EPICS_LIB` value other than
"pyepics" or "pyca"), exactly when no backend is installed; and whenever
neither backend is installed, the underlying import failure propagates
out of the module load regardless of the override. -/
theorem backend_error_exactly_when_none_installed (s : String) (EPICS_LIB : Option String)
    (env : PyEnv) (h1 : s ≠ "pyepics") (h2 : s ≠ "pyca") :
    (importErrorRaised (some s) env = true ↔
        env.pspInstalled = false ∧ env.pyepicsInstalled = false)
    ∧ (env.pspInstalled = false → env.pyepicsInstalled = false →
        importErrorRaised EPICS_LIB env = true) := by
  obtain ⟨psp, pe⟩ := env
  constructor
  · cases psp <;> cases pe <;>
      simp [importErrorRaised, loadModule, selectBackend, importBackend, h1, h2]
  · intro hpsp hpe
    subst hpsp; subst hpe
    rcases EPICS_LIB with _ | t
    · simp [importErrorRaised, loadModule, selectBackend, importBackend]
    · by_cases ht1 : t = "pyepics"
      · simp [importErrorRaised, loadModule, selectBackend, importBackend, ht1]
      · by_cases ht2 : t = "pyca" <;>
          simp [importErrorRaised, loadModule, selectBackend, importBackend, ht1, ht2]

/-- Witness for C2 at the concrete override "foo" with neither backend
installed: the error condition holds in both directions. -/
theorem backend_error_exactly_when_none_installed_witness :
    (importErrorRaised (some "foo") ⟨false, false⟩ = true ↔
        (⟨false, false⟩ : PyEnv).pspInstalled = false ∧
          (⟨false, false⟩ : PyEnv).pyepicsInstalled = false)
    ∧ ((⟨false, false⟩ : PyEnv).pspInstalled = false →
        (⟨false, false⟩ : PyEnv).pyepicsInstalled = false →
        importErrorRaised (some "pyepics") ⟨false, false⟩ = true) :=
  backend_error_exactly_when_none_installed "foo" (some "pyepics") ⟨false, false⟩
    (by decide) (by decide)

/-- C5: with `PYDM_EPICS_LIB` unset, the dispatch attempts PSPPlugin
first; when PSP is installed it binds `EPICSPlugin` to PSPPlugin without
trying PyEPICS, and only when the PSP import fails does it fall back to
PyEPICSPlugin. -/
theorem default_prefers_psp_then_pyepics (env : PyEnv) :
    (importAttempts none env).head? = some Backend.PSPPlugin
    ∧ (env.pspInstalled = true →
        loadModule none env = Except.ok ⟨Backend.PSPPlugin, "ca"⟩
        ∧ importAttempts none env = [Backend.PSPPlugin])
    ∧ (env.pspInstalled = false →
        importAttempts none env = [Backend.PSPPlugin, Backend.PyEPICSPlugin]
        ∧ (env.pyepicsInstalled = true →
            loadModule none env = Except.ok ⟨Backend.PyEPICSPlugin, "ca"⟩)) := by
  obtain ⟨psp, pe⟩ := env
  cases psp <;> cases pe <;>
    simp [importAttempts, loadModule, selectBackend, importBackend]

/-- Witness for C5 with PSP absent and PyEPICS installed: the fallback
binds PyEPICSPlugin after attempting PSP first. -/
theorem default_prefers_psp_then_pyepics_witness :
    (importAttempts none ⟨false, true⟩).head? = some Backend.PSPPlugin
    ∧ importAttempts none ⟨false, true⟩ = [Backend.PSPPlugin, Backend.PyEPICSPlugin]
    ∧ loadModule none ⟨false, true⟩ = Except.ok ⟨Backend.PyEPICSPlugin, "ca"⟩ :=
  ⟨(default_prefers_psp_then_pyepics ⟨false, true⟩).1,
    ((default_prefers_psp_then_pyepics ⟨false, true⟩).2.2 rfl).1,
    ((default_prefers_psp_then_pyepics ⟨false, true⟩).2.2 rfl).2 rfl⟩

/-- C6: an explicit "pyepics" override makes the module import only
PyEPICSPlugin and bind `EPICSPlugin` to it, and an explicit "pyca"
override makes it import only PSPPlugin and bind `EPICSPlugin` to it;
in both cases the attempted-import list is the single named backend, so
no fallback is ever attempted. -/
theorem explicit_override_binds_named_backend (env : PyEnv) :
    importAttempts (some "pyepics") env = [Backend.PyEPICSPlugin]
    ∧ importAttempts (some "pyca") env = [Backend.PSPPlugin]
    ∧ (env.pyepicsInstalled = true →
        loadModule (some "pyepics") env = Except.ok ⟨Backend.PyEPICSPlugin, "ca"⟩)
    ∧ (env.pspInstalled = true →
        loadModule (some "pyca") env = Except.ok ⟨Backend.PSPPlugin, "ca"⟩) := by
  obtain ⟨psp, pe⟩ := env
  cases psp <;> cases pe <;>
    simp [importAttempts, loadModule, selectBackend, importBackend]

/-- Witness for C6 with both backends installed: each override binds its
named backend. -/
theorem explicit_override_binds_named_backend_witness :
    loadModule (some "pyepics") ⟨true, true⟩ = Except.ok ⟨Backend.PyEPICSPlugin, "ca"⟩
    ∧ loadModule (some "pyca") ⟨true, true⟩ = Except.ok ⟨Backend.PSPPlugin, "ca"⟩
    ∧ importAttempts (some "pyepics") ⟨true, true⟩ = [Backend.PyEPICSPlugin]
    ∧ importAttempts (some "pyca") ⟨true, true⟩ = [Backend.PSPPlugin] :=
  ⟨(explicit_override_binds_named_backend ⟨true, true⟩).2.2.1 rfl,
    (explicit_override_binds_named_backend ⟨true, true⟩).2.2.2 rfl,
    (explicit_override_binds_named_backend ⟨true, true⟩).1,
    (explicit_override_binds_named_backend ⟨true, true⟩).2.1⟩

/-- C9: whenever the module load succeeds — on any override value and
any installation state — the resulting module's `protocol` attribute is
"ca". -/
theorem protocol_is_ca (EPICS_LIB : Option String) (env : PyEnv) (m : EpicsModule)
    (h : loadModule EPICS_LIB env = Except.ok m) : m.protocol = "ca" := by
  unfold loadModule at h
  rcases hsel : selectBackend EPICS_LIB env with b | b <;> rw [hsel] at h
  · cases h
  · cases h; rfl

/-- Witness for C9 at the default path with PSP installed. -/
theorem protocol_is_ca_witness :
    (⟨Backend.PSPPlugin, "ca"⟩ : EpicsModule).protocol = "ca" :=
  protocol_is_ca none ⟨true, true⟩ ⟨Backend.PSPPlugin, "ca"⟩ rfl

/-- C10: any `PYDM_EPICS_LIB` value other than exactly "pyepics" or
"pyca" (case variants and arbitrary strings included) behaves
identically to the unset case: same bound backend or propagated error,
and the same attempted-import sequence, with no error raised on account
of the unrecognized value itself. -/
theorem unrecognized_override_same_as_unset (s : String) (env : PyEnv)
    (h1 : s ≠ "pyepics") (h2 : s ≠ "pyca") :
    loadModule (some s) env = loadModule none env
    ∧ importAttempts (some s) env = importAttempts none env := by
  constructor <;> simp [loadModule, selectBackend, importAttempts, h1, h2]

/-- Witness for C10 at the concrete values "PyEPICS" (a case variant)
and a PyEPICS-only installation. -/
theorem unrecognized_override_same_as_unset_witness :
    loadModule (some "PyEPICS") ⟨false, true⟩ = loadModule none ⟨false, true⟩
    ∧ importAttempts (some "PyEPICS") ⟨false, true⟩ = importAttempts none ⟨false, true⟩ :=
  unrecognized_override_same_as_unset "PyEPICS" ⟨false, true⟩ (by decide) (by decide)

end EpicsPlugin

end Pydm
